import Mathlib

/-!
Shallow embedding of the metrics-aggregation pipeline of
`src/streamlit_app.py` (support-tickets dashboard).

The pipeline: two SQL aggregation queries (criteria per entity,
enrollments per entity), a left merge on entity id with zero-fill,
derived percentage fields, and a sequence of user filters.

Relational rows are Lean structures; SQL aggregation is modelled by
list operations (COUNT(DISTINCT x) as `dedup.length`, SUM(CASE WHEN p)
as `countP`, LEFT JOIN + GROUP BY as per-entity filtering, HAVING as a
post-aggregation filter, ORDER BY ... DESC as a descending insertion
sort). The rounded pandas percentage columns are exact numbers of
tenths computed by integer arithmetic, with `none` standing for the
NaN/inf a zero denominator would produce; `rintDiv_eq_roundHalfEven`
relates that integer computation to rounding over `ℚ`.
-/

/-- A row of the `entidades` table. -/
structure Entidade where
  id : Nat
  nome : String
deriving DecidableEq, Repr

/-- A row of the `criterios_avaliativos` table: the columns the
criteria query reads (nullable `formula_personalizada` and
`criterio_calculo_grupo_id`, three boolean flags). -/
structure Criterio where
  id : Nat
  entidade_id : Nat
  formula_personalizada : Option String
  criterio_calculo_grupo_id : Option Nat
  possui_criterios_grupos : Bool
  possui_recuperacao_paralela : Bool
  possui_recuperacao_semestral : Bool
deriving DecidableEq, Repr

/-- A row of the `turmas` table. -/
structure Turma where
  id : Nat
  entidade_id : Nat
deriving DecidableEq, Repr

/-- A row of the `matriculas` table. -/
structure Matricula where
  id : Nat
  turma_id : Nat
deriving DecidableEq, Repr

/-- The relational store the two queries run against. -/
structure Database where
  entidades : List Entidade
  criterios : List Criterio
  turmas : List Turma
  matriculas : List Matricula
deriving DecidableEq, Repr

/-- `ca.formula_personalizada IS NOT NULL` (line 46 of the query). -/
def isFormulaPersonalizada (c : Criterio) : Bool :=
  c.formula_personalizada.isSome

/-- `ca.criterio_calculo_grupo_id IS NOT NULL AND ca.possui_criterios_grupos = true`
(line 49). -/
def isCriterioGrupo (c : Criterio) : Bool :=
  c.criterio_calculo_grupo_id.isSome && c.possui_criterios_grupos

/-- group criterion with parallel recovery (lines 52-54). -/
def isGrupoRecParalela (c : Criterio) : Bool :=
  isCriterioGrupo c && c.possui_recuperacao_paralela

/-- group criterion with semester recovery (lines 57-59). -/
def isGrupoRecSemestral (c : Criterio) : Bool :=
  isCriterioGrupo c && c.possui_recuperacao_semestral

/-- custom formula with parallel recovery (lines 62-63). -/
def isFormulaRecParalela (c : Criterio) : Bool :=
  isFormulaPersonalizada c && c.possui_recuperacao_paralela

/-- custom formula with semester recovery (lines 66-67). -/
def isFormulaRecSemestral (c : Criterio) : Bool :=
  isFormulaPersonalizada c && c.possui_recuperacao_semestral

/-- Insert `a` into a list kept in descending `key` order: `a` goes in
front of the first element whose key is ≤ its own. -/
def insertByDesc {α : Type} (key : α → Nat) (a : α) : List α → List α
  | [] => [a]
  | b :: l => if key b ≤ key a then a :: b :: l else b :: insertByDesc key a l

/-- `ORDER BY key DESC`: a permutation of the input sorted by
descending `key` (insertion sort; SQL fixes no order among ties). -/
def sortByDesc {α : Type} (key : α → Nat) : List α → List α
  | [] => []
  | a :: l => insertByDesc key a (sortByDesc key l)

/-- One output row of `carregar_dados_categorias` (the criteria
aggregation query, lines 37-79). -/
structure CriteriaAggregate where
  entidade_id : Nat
  nome_entidade : String
  total_criterios : Nat
  formula_personalizada : Nat
  criterio_grupo : Nat
  grupo_rec_paralela : Nat
  grupo_rec_semestral : Nat
  formula_rec_paralela : Nat
  formula_rec_semestral : Nat
deriving DecidableEq, Repr

/-- The grouped aggregation for one entity: LEFT JOIN restricts the
criteria rows to `ca.entidade_id = e.id`; `COUNT(DISTINCT ca.id)` is
the number of distinct criterion ids, each `SUM(CASE WHEN p THEN 1
ELSE 0 END)` counts the joined rows satisfying `p` (a null-extended
row satisfies no predicate and contributes no distinct id, matching
the empty filter result). -/
def aggCategorias (cs : List Criterio) (e : Entidade) : CriteriaAggregate :=
  let rows := cs.filter (fun c => c.entidade_id = e.id)
  { entidade_id := e.id
    nome_entidade := e.nome
    total_criterios := ((rows.map (·.id)).dedup).length
    formula_personalizada := rows.countP isFormulaPersonalizada
    criterio_grupo := rows.countP isCriterioGrupo
    grupo_rec_paralela := rows.countP isGrupoRecParalela
    grupo_rec_semestral := rows.countP isGrupoRecSemestral
    formula_rec_paralela := rows.countP isFormulaRecParalela
    formula_rec_semestral := rows.countP isFormulaRecSemestral }

/-- `carregar_dados_categorias` (lines 36-80): group by entity, keep
groups with `COUNT(DISTINCT ca.id) > 0` (the HAVING clause), order by
`total_criterios` descending. -/
def carregar_dados_categorias (db : Database) : List CriteriaAggregate :=
  sortByDesc (·.total_criterios)
    ((db.entidades.map (aggCategorias db.criterios)).filter
      (fun r => 0 < r.total_criterios))

/-- One output row of `carregar_dados_matriculas` (lines 84-100). -/
structure MatriculaAggregate where
  entidade_id : Nat
  nome_entidade : String
  total_matriculas : Nat
  total_turmas : Nat
deriving DecidableEq, Repr

/-- The grouped aggregation for one entity: two chained LEFT JOINs
(entity → turmas → matriculas); `COUNT(DISTINCT t.id)` over the
entity's classes, `COUNT(DISTINCT m.id)` over the enrollments of those
classes. -/
def aggMatriculas (ts : List Turma) (ms : List Matricula) (e : Entidade) :
    MatriculaAggregate :=
  let turmasE := ts.filter (fun t => t.entidade_id = e.id)
  { entidade_id := e.id
    nome_entidade := e.nome
    total_matriculas :=
      (((turmasE.flatMap (fun t => ms.filter (fun m => m.turma_id = t.id))).map
          (·.id)).dedup).length
    total_turmas := ((turmasE.map (·.id)).dedup).length }

/-- `carregar_dados_matriculas` (lines 83-101): one row per entity (no
HAVING filter), ordered by `total_matriculas` descending. -/
def carregar_dados_matriculas (db : Database) : List MatriculaAggregate :=
  sortByDesc (·.total_matriculas)
    (db.entidades.map (aggMatriculas db.turmas db.matriculas))

/-- A row of `df_completo` right after `pd.merge` (lines 113-118):
the criteria columns plus the two enrollment columns, which are null
(`none`, pandas NaN) for an unmatched left row. -/
structure MergedRaw where
  entidade_id : Nat
  nome_entidade : String
  total_criterios : Nat
  formula_personalizada : Nat
  criterio_grupo : Nat
  grupo_rec_paralela : Nat
  grupo_rec_semestral : Nat
  formula_rec_paralela : Nat
  formula_rec_semestral : Nat
  total_matriculas : Option Nat
  total_turmas : Option Nat
deriving DecidableEq, Repr

/-- The combination of a criteria row with one matching enrollment row. -/
def combineRow (c : CriteriaAggregate) (m : MatriculaAggregate) : MergedRaw :=
  { entidade_id := c.entidade_id
    nome_entidade := c.nome_entidade
    total_criterios := c.total_criterios
    formula_personalizada := c.formula_personalizada
    criterio_grupo := c.criterio_grupo
    grupo_rec_paralela := c.grupo_rec_paralela
    grupo_rec_semestral := c.grupo_rec_semestral
    formula_rec_paralela := c.formula_rec_paralela
    formula_rec_semestral := c.formula_rec_semestral
    total_matriculas := some m.total_matriculas
    total_turmas := some m.total_turmas }

/-- A criteria row with no enrollment match: the enrollment columns
come out as NaN (`none`). -/
def nullExtended (c : CriteriaAggregate) : MergedRaw :=
  { entidade_id := c.entidade_id
    nome_entidade := c.nome_entidade
    total_criterios := c.total_criterios
    formula_personalizada := c.formula_personalizada
    criterio_grupo := c.criterio_grupo
    grupo_rec_paralela := c.grupo_rec_paralela
    grupo_rec_semestral := c.grupo_rec_semestral
    formula_rec_paralela := c.formula_rec_paralela
    formula_rec_semestral := c.formula_rec_semestral
    total_matriculas := none
    total_turmas := none }

/-- `pd.merge(df_categorias, df_matriculas[[...]], on='entidade_id',
how='left')` (lines 113-118): every left row is kept, paired with each
matching right row, or null-extended when no right row matches. -/
def merge_left (cat : List CriteriaAggregate) (mat : List MatriculaAggregate) :
    List MergedRaw :=
  cat.flatMap (fun c =>
    match mat.filter (fun m => m.entidade_id = c.entidade_id) with
    | [] => [nullExtended c]
    | ms => ms.map (combineRow c))

/-- numpy/pandas rounding of the non-negative quotient `a / b` to the
nearest integer, halves to even (the `rint` applied by `.round`),
computed with integer arithmetic. -/
def rintDiv (a b : Nat) : Nat :=
  if 2 * (a % b) < b then a / b
  else if b < 2 * (a % b) then a / b + 1
  else if (a / b) % 2 = 0 then a / b else a / b + 1

/-- `(num / den * 100).round(1)` as computed on lines 124-125: pandas
float division followed by `.round(1)`. The result is an exact number
of tenths (`some t` stands for the value `t / 10`); a zero denominator
yields NaN (0/0) or inf (x/0), modelled as `none` — the computation
has no guard. -/
def percentOf (num den : Nat) : Option Nat :=
  if den = 0 then none else some (rintDiv (num * 1000) den)

/-- Rounding to the nearest integer, halves to even, stated over `ℚ`
(the specification-level description of numpy rounding). -/
def roundHalfEven (x : ℚ) : ℤ :=
  if x - ⌊x⌋ < 1/2 then ⌊x⌋
  else if 1/2 < x - ⌊x⌋ then ⌊x⌋ + 1
  else if ⌊x⌋ % 2 = 0 then ⌊x⌋ else ⌊x⌋ + 1

/-- Modelled from the spec: "rounded to one decimal" over `ℚ`. -/
def round1Spec (x : ℚ) : ℚ := (roundHalfEven (x * 10) : ℚ) / 10

/-- Modelled from the spec: `percent = num / den * 100`, rounded to
one decimal. -/
def percentSpec (num den : Nat) : ℚ :=
  round1Spec ((num : ℚ) / (den : ℚ) * 100)

/-- A row of `df_completo` after `fillna(0)` (line 121) and the two
derived percentage columns (lines 124-125); the percentage columns
hold the rounded value as a number of tenths (`none` = NaN/inf). -/
structure MergedRow where
  entidade_id : Nat
  nome_entidade : String
  total_criterios : Nat
  formula_personalizada : Nat
  criterio_grupo : Nat
  grupo_rec_paralela : Nat
  grupo_rec_semestral : Nat
  formula_rec_paralela : Nat
  formula_rec_semestral : Nat
  total_matriculas : Nat
  total_turmas : Nat
  percentual_formula : Option Nat
  percentual_grupo : Option Nat
deriving DecidableEq, Repr

/-- Lines 121-125 applied to one merged row: `fillna(0)` turns the
null enrollment fields into 0, then the two percentage columns are
computed by unguarded division by `total_criterios`. -/
def fillnaAndDerive (r : MergedRaw) : MergedRow :=
  { entidade_id := r.entidade_id
    nome_entidade := r.nome_entidade
    total_criterios := r.total_criterios
    formula_personalizada := r.formula_personalizada
    criterio_grupo := r.criterio_grupo
    grupo_rec_paralela := r.grupo_rec_paralela
    grupo_rec_semestral := r.grupo_rec_semestral
    formula_rec_paralela := r.formula_rec_paralela
    formula_rec_semestral := r.formula_rec_semestral
    total_matriculas := r.total_matriculas.getD 0
    total_turmas := r.total_turmas.getD 0
    percentual_formula := percentOf r.formula_personalizada r.total_criterios
    percentual_grupo := percentOf r.criterio_grupo r.total_criterios }

/-- Lines 113-125: merge the two aggregates, zero-fill, derive
percentages. -/
def mesclar (cat : List CriteriaAggregate) (mat : List MatriculaAggregate) :
    List MergedRow :=
  (merge_left cat mat).map fillnaAndDerive

/-- The full `df_completo` construction from the database. -/
def carregar_df_completo (db : Database) : List MergedRow :=
  mesclar (carregar_dados_categorias db) (carregar_dados_matriculas db)

/-- Lines 111 and 500-501: the merge/derive stage runs only when both
aggregation results are present; otherwise the render short-circuits
to `st.error(...)` (modelled as `Except.error` with the message
text). -/
def render (dfCat : Option (List CriteriaAggregate))
    (dfMat : Option (List MatriculaAggregate)) :
    Except String (List MergedRow) :=
  match dfCat, dfMat with
  | some cat, some mat => .ok (mesclar cat mat)
  | _, _ =>
      .error "Não foi possível carregar os dados necessários para a análise."

/-- Lines 165-171: copy the merged table; restrict to the selected
entity names only when the selection is non-empty (Python truthiness
of the list); then keep rows with at least `min_matriculas`
enrollments; then rows with at least `min_criterios` criteria. -/
def filtrar (df : List MergedRow) (sel : List String)
    (minMat minCrit : Nat) : List MergedRow :=
  let d1 := if sel.isEmpty then df
    else df.filter (fun r => sel.contains r.nome_entidade)
  let d2 := d1.filter (fun r => minMat ≤ r.total_matriculas)
  d2.filter (fun r => minCrit ≤ r.total_criterios)

/-- The side effects `executar_consulta` can emit: `st.error` with a
message and `st.code` with the offending query text (lines 31-32). -/
inductive UIMessage where
  | errorMsg (msg : String)
  | codeBlock (text : String)
deriving DecidableEq, Repr

/-- `executar_consulta` (lines 26-33), abstracted over the effectful
`pd.read_sql` call, which either returns a dataframe or raises
(modelled as `Except`): on success the dataframe is returned with no
UI output; on an exception the handler emits `st.error` with the
exception text, `st.code` with the query, and returns `None`. The
function is total: no exception escapes it. -/
def executar_consulta {α : Type} (read_sql : String → Except String α)
    (query : String) : Option α × List UIMessage :=
  match read_sql query with
  | .ok df => (some df, [])
  | .error e =>
      (none, [.errorMsg ("Erro ao executar consulta: " ++ e), .codeBlock query])

/-- The criteria-side columns of a raw merged row. -/
def criteriaPart (r : MergedRaw) : CriteriaAggregate :=
  { entidade_id := r.entidade_id
    nome_entidade := r.nome_entidade
    total_criterios := r.total_criterios
    formula_personalizada := r.formula_personalizada
    criterio_grupo := r.criterio_grupo
    grupo_rec_paralela := r.grupo_rec_paralela
    grupo_rec_semestral := r.grupo_rec_semestral
    formula_rec_paralela := r.formula_rec_paralela
    formula_rec_semestral := r.formula_rec_semestral }

/-! ### Concrete sample data -/

/-- A sample database: entity A (id 1) owns ten criteria, three of
them with a custom formula and two group criteria; entity B (id 2)
owns none. A has one class with two enrollments. -/
def dbEx : Database :=
  { entidades := [⟨1, "A"⟩, ⟨2, "B"⟩]
    criterios :=
      [⟨1, 1, some "f", none, false, false, false⟩,
       ⟨2, 1, some "f", none, false, true, false⟩,
       ⟨3, 1, some "f", none, false, false, true⟩,
       ⟨4, 1, none, some 7, true, true, false⟩,
       ⟨5, 1, none, some 7, true, false, true⟩,
       ⟨6, 1, none, none, false, false, false⟩,
       ⟨7, 1, none, none, false, false, false⟩,
       ⟨8, 1, none, none, false, false, false⟩,
       ⟨9, 1, none, none, false, false, false⟩,
       ⟨10, 1, none, none, false, false, false⟩]
    turmas := [⟨1, 1⟩]
    matriculas := [⟨1, 1⟩, ⟨2, 1⟩] }

/-- The criteria aggregate `dbEx` produces for entity A. -/
def rowCatEx : CriteriaAggregate :=
  { entidade_id := 1, nome_entidade := "A", total_criterios := 10
    formula_personalizada := 3, criterio_grupo := 2, grupo_rec_paralela := 1
    grupo_rec_semestral := 1, formula_rec_paralela := 1
    formula_rec_semestral := 1 }

/-- The merged row `dbEx` produces for entity A: 3 of 10 criteria have
a custom formula, so `percentual_formula` is 300 tenths = 30.0%. -/
def rowEx : MergedRow :=
  { entidade_id := 1, nome_entidade := "A", total_criterios := 10
    formula_personalizada := 3, criterio_grupo := 2, grupo_rec_paralela := 1
    grupo_rec_semestral := 1, formula_rec_paralela := 1
    formula_rec_semestral := 1, total_matriculas := 2, total_turmas := 1
    percentual_formula := some 300, percentual_grupo := some 200 }

/-- A raw merged row whose `total_criterios` is zero (unreachable
through the pipeline because of the HAVING filter, but the derived
computation accepts it). -/
def rawZero : MergedRaw :=
  { entidade_id := 9, nome_entidade := "Z", total_criterios := 0
    formula_personalizada := 0, criterio_grupo := 0, grupo_rec_paralela := 0
    grupo_rec_semestral := 0, formula_rec_paralela := 0
    formula_rec_semestral := 0, total_matriculas := none
    total_turmas := none }

/-- A criteria aggregate used to exercise the zero-fill path. -/
def cEx : CriteriaAggregate :=
  { entidade_id := 3, nome_entidade := "C", total_criterios := 4
    formula_personalizada := 1, criterio_grupo := 2, grupo_rec_paralela := 0
    grupo_rec_semestral := 1, formula_rec_paralela := 1
    formula_rec_semestral := 0 }

/-- An effectful read that always raises, for exercising the handler. -/
def failRead : String → Except String Nat :=
  fun _ => .error "connection refused"

/-! ### Sorting lemmas -/

theorem insertByDesc_perm {α : Type} (key : α → Nat) (a : α) :
    ∀ l : List α, (insertByDesc key a l).Perm (a :: l)
  | [] => List.Perm.refl _
  | b :: l => by
      unfold insertByDesc
      split
      · exact List.Perm.refl _
      · exact ((insertByDesc_perm key a l).cons b).trans (List.Perm.swap a b l)

theorem sortByDesc_perm {α : Type} (key : α → Nat) :
    ∀ l : List α, (sortByDesc key l).Perm l
  | [] => List.Perm.refl _
  | a :: l =>
      (insertByDesc_perm key a (sortByDesc key l)).trans
        ((sortByDesc_perm key l).cons a)

theorem pairwise_insertByDesc {α : Type} (key : α → Nat) (a : α) :
    ∀ {l : List α}, l.Pairwise (fun x y => key y ≤ key x) →
      (insertByDesc key a l).Pairwise (fun x y => key y ≤ key x)
  | [], _ => List.pairwise_singleton _ a
  | b :: l, h => by
      rw [List.pairwise_cons] at h
      obtain ⟨hb, hl⟩ := h
      unfold insertByDesc
      split
      · rename_i hba
        refine List.pairwise_cons.mpr ⟨?_, List.pairwise_cons.mpr ⟨hb, hl⟩⟩
        intro x hx
        rcases List.mem_cons.mp hx with rfl | hx
        · exact hba
        · exact le_trans (hb x hx) hba
      · rename_i hba
        refine List.pairwise_cons.mpr ⟨?_, pairwise_insertByDesc key a hl⟩
        intro x hx
        rcases List.mem_cons.mp ((insertByDesc_perm key a l).mem_iff.mp hx) with
          rfl | hx
        · exact le_of_not_le hba
        · exact hb x hx

theorem pairwise_sortByDesc {α : Type} (key : α → Nat) :
    ∀ l : List α, (sortByDesc key l).Pairwise (fun x y => key y ≤ key x)
  | [] => List.Pairwise.nil
  | a :: l => pairwise_insertByDesc key a (pairwise_sortByDesc key l)

/-! ### Unique-key lemmas -/

/-- In a list whose keys are pairwise distinct, at most one element
matches a given key. -/
theorem length_filter_key_le_one {α : Type} (key : α → Nat) (k : Nat) :
    ∀ l : List α, (l.map key).Nodup →
      (l.filter (fun x => key x = k)).length ≤ 1
  | [], _ => by simp
  | b :: l, h => by
      rw [List.map_cons, List.nodup_cons] at h
      obtain ⟨hb, hl⟩ := h
      by_cases hk : key b = k
      · have hrest : l.filter (fun x => key x = k) = [] := by
          refine List.filter_eq_nil_iff.mpr ?_
          intro x hx
          simp only [decide_eq_true_eq]
          intro hxk
          exact hb (by rw [hk, ← hxk]; exact List.mem_map_of_mem key hx)
        simp [List.filter_cons, hk, hrest]
      · simpa [List.filter_cons, hk] using length_filter_key_le_one key k l hl

/-- In a list whose keys are pairwise distinct, counting the elements
that share the key of a member `a` and satisfy `P` just tests `P a`. -/
theorem countP_key_of_nodup {α : Type} (key : α → Nat) (P : α → Bool) :
    ∀ l : List α, (l.map key).Nodup → ∀ a ∈ l,
      l.countP (fun x => decide (key x = key a) && P x) =
        if P a then 1 else 0
  | [], _, a, ha => absurd ha (List.not_mem_nil a)
  | b :: l, h, a, ha => by
      rw [List.map_cons, List.nodup_cons] at h
      obtain ⟨hb, hl⟩ := h
      rcases List.mem_cons.mp ha with rfl | ha
      · have hrest : l.countP (fun x => decide (key x = key a) && P x) = 0 := by
          refine List.countP_eq_zero.mpr ?_
          intro x hx
          simp only [Bool.and_eq_true, decide_eq_true_eq, not_and]
          intro hxk _
          exact hb (hxk ▸ List.mem_map_of_mem key hx)
        rw [List.countP_cons, hrest]
        by_cases hPa : P a = true <;> simp [hPa]
      · have hkey : key b ≠ key a := fun hba =>
          hb (hba ▸ List.mem_map_of_mem key ha)
        rw [List.countP_cons]
        simp only [hkey, decide_eq_false, Bool.false_and, Bool.and_eq_false_iff]
        rw [countP_key_of_nodup key P l hl a ha]
        simp

/-! ### Aggregation lemmas -/

theorem aggCategorias_entidade_id (cs : List Criterio) (e : Entidade) :
    (aggCategorias cs e).entidade_id = e.id := rfl

theorem aggMatriculas_entidade_id (ts : List Turma) (ms : List Matricula)
    (e : Entidade) : (aggMatriculas ts ms e).entidade_id = e.id := rfl

theorem mem_carregar_dados_categorias {db : Database} {r : CriteriaAggregate} :
    r ∈ carregar_dados_categorias db ↔
      (∃ e ∈ db.entidades, r = aggCategorias db.criterios e) ∧
        0 < r.total_criterios := by
  unfold carregar_dados_categorias
  rw [(sortByDesc_perm (fun r : CriteriaAggregate => r.total_criterios)
      _).mem_iff, List.mem_filter]
  simp only [List.mem_map, decide_eq_true_eq]
  constructor
  · rintro ⟨⟨e, he, hr⟩, hpos⟩
    exact ⟨⟨e, he, hr.symm⟩, hpos⟩
  · rintro ⟨⟨e, he, hr⟩, hpos⟩
    exact ⟨⟨e, he, hr.symm⟩, hpos⟩

/-- Under distinctness of criterion ids (the table's primary key),
`COUNT(DISTINCT ca.id)` is simply the number of joined criteria
rows. -/
theorem total_criterios_eq_length {cs : List Criterio}
    (h : (cs.map (·.id)).Nodup) (e : Entidade) :
    (aggCategorias cs e).total_criterios =
      (cs.filter (fun c => c.entidade_id = e.id)).length := by
  unfold aggCategorias
  simp only
  have hsub : ((cs.filter (fun c => c.entidade_id = e.id)).map (·.id)).Sublist
      (cs.map (·.id)) := (List.filter_sublist cs).map _
  rw [List.Nodup.dedup (hsub.nodup h), List.length_map]

theorem total_criterios_pos_iff (cs : List Criterio) (e : Entidade) :
    0 < (aggCategorias cs e).total_criterios ↔
      ∃ c ∈ cs, c.entidade_id = e.id := by
  unfold aggCategorias
  simp only [List.length_pos, ne_eq, List.dedup_eq_nil, List.map_eq_nil_iff,
    List.filter_eq_nil_iff, decide_eq_true_eq]
  push_neg
  rfl

/-! ### Merge lemmas -/

theorem criteriaPart_combineRow (c : CriteriaAggregate)
    (m : MatriculaAggregate) : criteriaPart (combineRow c m) = c := rfl

theorem criteriaPart_nullExtended (c : CriteriaAggregate) :
    criteriaPart (nullExtended c) = c := rfl

/-- Every row produced by the left merge carries the criteria columns
of some row of the left operand. -/
theorem mem_merge_left {cat : List CriteriaAggregate}
    {mat : List MatriculaAggregate} {r : MergedRaw}
    (h : r ∈ merge_left cat mat) : criteriaPart r ∈ cat := by
  unfold merge_left at h
  obtain ⟨c, hc, hr⟩ := List.mem_flatMap.mp h
  revert hr
  split
  · intro hr
    rcases List.mem_singleton.mp hr with rfl
    simpa [criteriaPart_nullExtended] using hc
  · intro hr
    obtain ⟨m, _, hm⟩ := List.mem_map.mp hr
    rcases hm.symm with rfl
    simpa [criteriaPart_combineRow] using hc

/-- A left row with no enrollment match survives the merge
null-extended. -/
theorem nullExtended_mem_merge_left {cat : List CriteriaAggregate}
    {mat : List MatriculaAggregate} {c : CriteriaAggregate} (hc : c ∈ cat)
    (hm : mat.filter (fun m => m.entidade_id = c.entidade_id) = []) :
    nullExtended c ∈ merge_left cat mat := by
  unfold merge_left
  refine List.mem_flatMap.mpr ⟨c, hc, ?_⟩
  rw [hm]
  exact List.mem_singleton.mpr rfl

/-- Every final merged row carries the criteria columns of some left
row, and its percentage columns are the unguarded division applied to
those columns. -/
theorem mem_mesclar {cat : List CriteriaAggregate}
    {mat : List MatriculaAggregate} {r : MergedRow} (h : r ∈ mesclar cat mat) :
    ∃ c ∈ cat,
      r.entidade_id = c.entidade_id ∧
      r.nome_entidade = c.nome_entidade ∧
      r.total_criterios = c.total_criterios ∧
      r.formula_personalizada = c.formula_personalizada ∧
      r.criterio_grupo = c.criterio_grupo ∧
      r.percentual_formula = percentOf c.formula_personalizada c.total_criterios ∧
      r.percentual_grupo = percentOf c.criterio_grupo c.total_criterios := by
  obtain ⟨raw, hraw, hr⟩ := List.mem_map.mp h
  rcases hr.symm with rfl
  exact ⟨criteriaPart raw, mem_merge_left hraw, rfl, rfl, rfl, rfl, rfl, rfl, rfl⟩

/-- A merge block for one left row maps to that row's entity id,
provided at most one right row matches. -/
theorem map_entidade_block (c : CriteriaAggregate) :
    ∀ fl : List MatriculaAggregate, fl.length ≤ 1 →
      ((match fl with
        | [] => [nullExtended c]
        | ms => ms.map (combineRow c)) : List MergedRaw).map (·.entidade_id) =
        [c.entidade_id]
  | [], _ => by simp [nullExtended]
  | [m], _ => by simp [combineRow]
  | m :: m' :: ms, h => by simp at h

/-- When the right side has at most one row per entity id, the left
merge reproduces the left side's entity-id column exactly. -/
theorem merge_left_map_entidade :
    ∀ (cat : List CriteriaAggregate) (mat : List MatriculaAggregate),
      (mat.map (·.entidade_id)).Nodup →
      (merge_left cat mat).map (·.entidade_id) = cat.map (·.entidade_id)
  | [], _, _ => rfl
  | c :: cat, mat, h => by
      have hblock := map_entidade_block c
        (mat.filter (fun m => m.entidade_id = c.entidade_id))
        (length_filter_key_le_one (fun m : MatriculaAggregate => m.entidade_id)
          c.entidade_id mat h)
      unfold merge_left
      rw [List.flatMap_cons, List.map_append, hblock]
      have htail := merge_left_map_entidade cat mat h
      unfold merge_left at htail
      rw [htail, List.map_cons]
      rfl

theorem merge_left_length {cat : List CriteriaAggregate}
    {mat : List MatriculaAggregate} (h : (mat.map (·.entidade_id)).Nodup) :
    (merge_left cat mat).length = cat.length := by
  have hmap := congrArg List.length (merge_left_map_entidade cat mat h)
  simpa using hmap

/-- The enrollment aggregate's entity-id column is a permutation of
the entity table's id column. -/
theorem carregar_dados_matriculas_map_perm (db : Database) :
    ((carregar_dados_matriculas db).map (·.entidade_id)).Perm
      (db.entidades.map (·.id)) := by
  unfold carregar_dados_matriculas
  refine ((sortByDesc_perm _ _).map _).trans ?_
  rw [List.map_map]
  exact List.Perm.refl _

/-! ### Rounding lemmas -/

/-- The integer round-half-even of a quotient of naturals agrees with
the `ℚ`-level description of numpy rounding. -/
theorem rintDiv_eq_roundHalfEven {a b : Nat} (hb : b ≠ 0) :
    (rintDiv a b : ℤ) = roundHalfEven ((a : ℚ) / (b : ℚ)) := by
  have hbpos : 0 < b := Nat.pos_of_ne_zero hb
  have hb0 : (0 : ℚ) < (b : ℚ) := by exact_mod_cast hbpos
  have hx : (a : ℚ) / (b : ℚ) =
      ((a % b : ℕ) : ℚ) / (b : ℚ) + ((a / b : ℕ) : ℚ) := by
    field_simp
    exact_mod_cast (Nat.mod_add_div' a b).symm
  have hfr0 : (0 : ℚ) ≤ ((a % b : ℕ) : ℚ) / (b : ℚ) := by positivity
  have hfr1 : ((a % b : ℕ) : ℚ) / (b : ℚ) < 1 := by
    rw [div_lt_one hb0]
    exact_mod_cast Nat.mod_lt a hbpos
  have hfloor : ⌊(a : ℚ) / (b : ℚ)⌋ = ((a / b : ℕ) : ℤ) := by
    rw [hx, Int.floor_add_nat, Int.floor_eq_zero_iff.mpr ⟨hfr0, hfr1⟩]
    simp
  have hfrac : (a : ℚ) / (b : ℚ) - ⌊(a : ℚ) / (b : ℚ)⌋ =
      ((a % b : ℕ) : ℚ) / (b : ℚ) := by
    nth_rewrite 1 [hx]
    rw [hfloor, Int.cast_natCast]
    ring
  have hc1 : ((a : ℚ) / (b : ℚ) - ⌊(a : ℚ) / (b : ℚ)⌋ < 1/2) ↔
      (2 * (a % b) < b) := by
    rw [hfrac, div_lt_div_iff₀ hb0 (by norm_num : (0:ℚ) < 2), one_mul,
      mul_comm]
    exact_mod_cast Iff.rfl
  have hc2 : ((1:ℚ)/2 < (a : ℚ) / (b : ℚ) - ⌊(a : ℚ) / (b : ℚ)⌋) ↔
      (b < 2 * (a % b)) := by
    rw [hfrac, div_lt_div_iff₀ (by norm_num : (0:ℚ) < 2) hb0, one_mul,
      mul_comm]
    exact_mod_cast Iff.rfl
  have hc3 : (⌊(a : ℚ) / (b : ℚ)⌋ % 2 = 0) ↔ ((a / b) % 2 = 0) := by
    rw [hfloor]
    omega
  unfold rintDiv roundHalfEven
  by_cases h1 : 2 * (a % b) < b
  · rw [if_pos h1, if_pos (hc1.mpr h1), hfloor]
  · rw [if_neg h1, if_neg (fun hq => h1 (hc1.mp hq))]
    by_cases h2 : b < 2 * (a % b)
    · rw [if_pos h2, if_pos (hc2.mpr h2), hfloor]
      push_cast
      ring
    · rw [if_neg h2, if_neg (fun hq => h2 (hc2.mp hq))]
      by_cases h3 : (a / b) % 2 = 0
      · rw [if_pos h3, if_pos (hc3.mpr h3), hfloor]
      · rw [if_neg h3, if_neg (fun hq => h3 (hc3.mp hq)), hfloor]
        push_cast
        ring

/-- For a non-zero denominator, the tenths computed on lines 124-125
are exactly the spec-level percentage rounded to one decimal. -/
theorem percentOf_spec {num den : Nat} (hden : den ≠ 0) :
    (percentOf num den).map (fun t : ℕ => ((t : ℚ) / 10)) =
      some (percentSpec num den) := by
  unfold percentOf percentSpec round1Spec
  rw [if_neg hden]
  rw [Option.map_some']
  have harg : (num : ℚ) / (den : ℚ) * 100 * 10 =
      ((num * 1000 : ℕ) : ℚ) / (den : ℚ) := by
    push_cast
    ring
  rw [harg, ← rintDiv_eq_roundHalfEven hden, Int.cast_natCast]

/-! ### Claim theorems -/

/-- Claim C1, counterexample: the derived-percentage computation of
lines 124-125 is not guarded against a zero denominator — applied to a
row with `total_criterios = 0` it yields an undefined value (NaN/inf,
modelled `none`), not 0. -/
theorem C1_counterexample :
    rawZero.total_criterios = 0 ∧
    (fillnaAndDerive rawZero).percentual_formula = none ∧
    (fillnaAndDerive rawZero).percentual_grupo = none ∧
    (fillnaAndDerive rawZero).percentual_formula ≠ some 0 ∧
    (fillnaAndDerive rawZero).percentual_grupo ≠ some 0 := by decide

/-- Claim C1, amended: the percentage computations carry no zero-
denominator guard, but every row of the merged table has
`total_criterios > 0` (enforced by the HAVING filter of the criteria
query), so both derived percentages are defined on every row the
pipeline actually produces. -/
theorem C1_no_zero_denominator (db : Database) (r : MergedRow)
    (hr : r ∈ carregar_df_completo db) :
    0 < r.total_criterios ∧
      r.percentual_formula.isSome ∧ r.percentual_grupo.isSome := by
  obtain ⟨c, hc, h1, h2, h3, h4, h5, h6, h7⟩ := mem_mesclar hr
  have hcpos : 0 < c.total_criterios :=
    (mem_carregar_dados_categorias.mp hc).2
  have hne : c.total_criterios ≠ 0 := Nat.pos_iff_ne_zero.mp hcpos
  refine ⟨h3 ▸ hcpos, ?_, ?_⟩
  · rw [h6]
    unfold percentOf
    rw [if_neg hne]
    rfl
  · rw [h7]
    unfold percentOf
    rw [if_neg hne]
    rfl

/-- Claim C1, witness: the concrete pipeline run on `dbEx` produces
`rowEx`, whose percentages are defined. -/
theorem C1_witness :
    rowEx ∈ carregar_df_completo dbEx ∧
      (0 < rowEx.total_criterios ∧ rowEx.percentual_formula.isSome ∧
        rowEx.percentual_grupo.isSome) :=
  ⟨by decide, C1_no_zero_denominator dbEx rowEx (by decide)⟩

/-- Claim C2: an entity present in the criteria aggregate with no
matching enrollment row still yields a merged row, with
`total_matriculas = 0` and `total_turmas = 0` after `fillna(0)`. -/
theorem C2_zero_fill {cat : List CriteriaAggregate}
    {mat : List MatriculaAggregate} {c : CriteriaAggregate} (hc : c ∈ cat)
    (hm : ∀ m ∈ mat, m.entidade_id ≠ c.entidade_id) :
    ∃ r ∈ mesclar cat mat,
      r.entidade_id = c.entidade_id ∧ r.nome_entidade = c.nome_entidade ∧
      r.total_criterios = c.total_criterios ∧
      r.total_matriculas = 0 ∧ r.total_turmas = 0 := by
  have hfil : mat.filter (fun m => m.entidade_id = c.entidade_id) = [] :=
    List.filter_eq_nil_iff.mpr (fun m hmem => by simpa using hm m hmem)
  exact ⟨fillnaAndDerive (nullExtended c),
    List.mem_map_of_mem _ (nullExtended_mem_merge_left hc hfil),
    rfl, rfl, rfl, rfl, rfl⟩

/-- Claim C2, witness: merging `[cEx]` with an empty enrollment
aggregate keeps the row, zero-filled. -/
theorem C2_witness :
    ∃ r ∈ mesclar [cEx] [],
      r.entidade_id = cEx.entidade_id ∧ r.nome_entidade = cEx.nome_entidade ∧
      r.total_criterios = cEx.total_criterios ∧
      r.total_matriculas = 0 ∧ r.total_turmas = 0 :=
  C2_zero_fill (by decide) (by decide)

/-- Claim C3: on every merged row, `percentual_formula` is
`formula_personalizada / total_criterios * 100` rounded to one
decimal, and `percentual_grupo` likewise for `criterio_grupo` (the
stored tenths, read as a rational, equal the spec formula). -/
theorem C3_percent_fields (db : Database) (r : MergedRow)
    (hr : r ∈ carregar_df_completo db) :
    r.percentual_formula.map (fun t : ℕ => ((t : ℚ) / 10)) =
      some (percentSpec r.formula_personalizada r.total_criterios) ∧
    r.percentual_grupo.map (fun t : ℕ => ((t : ℚ) / 10)) =
      some (percentSpec r.criterio_grupo r.total_criterios) := by
  obtain ⟨c, hc, h1, h2, h3, h4, h5, h6, h7⟩ := mem_mesclar hr
  have hne : c.total_criterios ≠ 0 :=
    Nat.pos_iff_ne_zero.mp (mem_carregar_dados_categorias.mp hc).2
  rw [h3, h4, h5, h6, h7]
  exact ⟨percentOf_spec hne, percentOf_spec hne⟩

/-- Claim C3, witness: in `dbEx`, entity A has `total_criterios = 10`
and `formula_personalizada = 3`, and its `percentual_formula` is 300
tenths, i.e. 30.0. -/
theorem C3_witness :
    rowEx ∈ carregar_df_completo dbEx ∧
    (rowEx.percentual_formula.map (fun t : ℕ => ((t : ℚ) / 10)) =
        some (percentSpec rowEx.formula_personalizada rowEx.total_criterios) ∧
      rowEx.percentual_grupo.map (fun t : ℕ => ((t : ℚ) / 10)) =
        some (percentSpec rowEx.criterio_grupo rowEx.total_criterios)) ∧
    rowEx.total_criterios = 10 ∧ rowEx.formula_personalizada = 3 ∧
    rowEx.percentual_formula = some 300 :=
  ⟨by decide, C3_percent_fields dbEx rowEx (by decide), by decide, by decide,
    by decide⟩

/-- Claim C4: a row survives the filter engine iff it is in the
merged table, its name is among the selected names whenever the
selection is non-empty, and it meets both inclusive thresholds — so
every surviving row satisfies all the predicates and no satisfying row
is dropped. -/
theorem C4_filter_semantics (df : List MergedRow) (sel : List String)
    (minMat minCrit : Nat) (r : MergedRow) :
    r ∈ filtrar df sel minMat minCrit ↔
      r ∈ df ∧ (sel ≠ [] → r.nome_entidade ∈ sel) ∧
        minMat ≤ r.total_matriculas ∧ minCrit ≤ r.total_criterios := by
  unfold filtrar
  by_cases hsel : sel.isEmpty
  · rw [if_pos hsel]
    have hnil : sel = [] := List.isEmpty_iff.mp hsel
    simp only [List.mem_filter, decide_eq_true_eq, hnil, ne_eq,
      not_true_eq_false, false_implies, true_and]
    constructor
    · rintro ⟨⟨hdf, hmat⟩, hcrit⟩
      exact ⟨hdf, hmat, hcrit⟩
    · rintro ⟨hdf, hmat, hcrit⟩
      exact ⟨⟨hdf, hmat⟩, hcrit⟩
  · rw [if_neg hsel]
    have hne : sel ≠ [] := by simpa [List.isEmpty_iff] using hsel
    simp only [List.mem_filter, decide_eq_true_eq, List.elem_iff]
    constructor
    · rintro ⟨⟨⟨hdf, hsel'⟩, hmat⟩, hcrit⟩
      exact ⟨hdf, fun _ => hsel', hmat, hcrit⟩
    · rintro ⟨hdf, hsel', hmat, hcrit⟩
      exact ⟨⟨⟨hdf, hsel' hne⟩, hmat⟩, hcrit⟩

/-- Claim C5: with the name selection fixed, raising either threshold
never enlarges the filtered set. -/
theorem C5_threshold_monotone (df : List MergedRow) (sel : List String)
    {minMat minMat' minCrit minCrit' : Nat} (hm : minMat ≤ minMat')
    (hc : minCrit ≤ minCrit') :
    (filtrar df sel minMat' minCrit').length ≤
      (filtrar df sel minMat minCrit).length := by
  unfold filtrar
  rw [List.filter_filter, List.filter_filter]
  refine List.Sublist.length_le (List.monotone_filter_right _ ?_)
  intro r h
  simp only [Bool.and_eq_true, decide_eq_true_eq] at h ⊢
  exact ⟨le_trans hc h.1, le_trans hm h.2⟩

/-- Claim C5, witness: on the concrete pipeline output, tightening
the thresholds from (1, 2) to (3, 5) does not enlarge the result. -/
theorem C5_witness :
    (filtrar (carregar_df_completo dbEx) [] 3 5).length ≤
      (filtrar (carregar_df_completo dbEx) [] 1 2).length :=
  C5_threshold_monotone (carregar_df_completo dbEx) [] (by decide) (by decide)

/-- Claim C6: under distinct entity ids, the criteria aggregator
emits exactly one row for each entity owning at least one criterion,
no row for an entity owning none, and its output is ordered by
`total_criterios` descending. -/
theorem C6_aggregator_rows (db : Database)
    (hN : (db.entidades.map (·.id)).Nodup) :
    (∀ e ∈ db.entidades,
      ((carregar_dados_categorias db).filter
          (fun r => r.entidade_id = e.id)).length =
        if ∃ c ∈ db.criterios, c.entidade_id = e.id then 1 else 0) ∧
    (carregar_dados_categorias db).Pairwise
      (fun a b => b.total_criterios ≤ a.total_criterios) := by
  constructor
  · intro e he
    rw [← List.countP_eq_length_filter]
    unfold carregar_dados_categorias
    rw [(sortByDesc_perm (fun r : CriteriaAggregate =>
      r.total_criterios) _).countP_eq]
    rw [List.countP_filter, List.countP_map]
    have hkey := countP_key_of_nodup (fun x : Entidade => x.id)
      (fun e' => decide (0 < (aggCategorias db.criterios e').total_criterios))
      db.entidades hN e he
    have hfun : ((fun r : CriteriaAggregate =>
        decide (r.entidade_id = e.id) && decide (0 < r.total_criterios)) ∘
          aggCategorias db.criterios) =
        (fun x : Entidade =>
          decide (x.id = e.id) &&
            decide (0 < (aggCategorias db.criterios x).total_criterios)) := rfl
    rw [hfun, hkey]
    by_cases hex : ∃ c ∈ db.criterios, c.entidade_id = e.id
    · rw [if_pos hex, if_pos]
      exact decide_eq_true ((total_criterios_pos_iff db.criterios e).mpr hex)
    · rw [if_neg hex, if_neg]
      intro hd
      exact hex
        ((total_criterios_pos_iff db.criterios e).mp (of_decide_eq_true hd))
  · exact pairwise_sortByDesc _ _

/-- Claim C6, witness: in `dbEx`, entity A (one criterion or more)
gets exactly one row and entity B (no criteria) none, and the output
is sorted. -/
theorem C6_witness :
    (∀ e ∈ dbEx.entidades,
      ((carregar_dados_categorias dbEx).filter
          (fun r => r.entidade_id = e.id)).length =
        if ∃ c ∈ dbEx.criterios, c.entidade_id = e.id then 1 else 0) ∧
    (carregar_dados_categorias dbEx).Pairwise
      (fun a b => b.total_criterios ≤ a.total_criterios) :=
  C6_aggregator_rows dbEx (by decide)

/-- Claim C7: under distinct criterion ids, every output row of the
criteria aggregator has each of the six sub-counts bounded by
`total_criterios`, each group-recovery sub-count bounded by
`criterio_grupo`, and each formula-recovery sub-count bounded by
`formula_personalizada`. -/
theorem C7_subcount_invariants (db : Database)
    (hC : (db.criterios.map (·.id)).Nodup) (r : CriteriaAggregate)
    (hr : r ∈ carregar_dados_categorias db) :
    r.formula_personalizada ≤ r.total_criterios ∧
    r.criterio_grupo ≤ r.total_criterios ∧
    r.grupo_rec_paralela ≤ r.total_criterios ∧
    r.grupo_rec_semestral ≤ r.total_criterios ∧
    r.formula_rec_paralela ≤ r.total_criterios ∧
    r.formula_rec_semestral ≤ r.total_criterios ∧
    r.grupo_rec_paralela ≤ r.criterio_grupo ∧
    r.grupo_rec_semestral ≤ r.criterio_grupo ∧
    r.formula_rec_paralela ≤ r.formula_personalizada ∧
    r.formula_rec_semestral ≤ r.formula_personalizada := by
  obtain ⟨⟨e, he, rfl⟩, -⟩ := mem_carregar_dados_categorias.mp hr
  rw [total_criterios_eq_length hC e]
  refine ⟨List.countP_le_length _, List.countP_le_length _,
    List.countP_le_length _, List.countP_le_length _,
    List.countP_le_length _, List.countP_le_length _,
    ?_, ?_, ?_, ?_⟩
  · exact List.countP_mono_left (fun c _ h => by
      simp only [isGrupoRecParalela, Bool.and_eq_true] at h
      exact h.1)
  · exact List.countP_mono_left (fun c _ h => by
      simp only [isGrupoRecSemestral, Bool.and_eq_true] at h
      exact h.1)
  · exact List.countP_mono_left (fun c _ h => by
      simp only [isFormulaRecParalela, Bool.and_eq_true] at h
      exact h.1)
  · exact List.countP_mono_left (fun c _ h => by
      simp only [isFormulaRecSemestral, Bool.and_eq_true] at h
      exact h.1)

/-- Claim C7, witness: the invariants hold on the concrete aggregate
row of entity A in `dbEx`. -/
theorem C7_witness :
    rowCatEx ∈ carregar_dados_categorias dbEx ∧
      (rowCatEx.formula_personalizada ≤ rowCatEx.total_criterios ∧
       rowCatEx.criterio_grupo ≤ rowCatEx.total_criterios ∧
       rowCatEx.grupo_rec_paralela ≤ rowCatEx.total_criterios ∧
       rowCatEx.grupo_rec_semestral ≤ rowCatEx.total_criterios ∧
       rowCatEx.formula_rec_paralela ≤ rowCatEx.total_criterios ∧
       rowCatEx.formula_rec_semestral ≤ rowCatEx.total_criterios ∧
       rowCatEx.grupo_rec_paralela ≤ rowCatEx.criterio_grupo ∧
       rowCatEx.grupo_rec_semestral ≤ rowCatEx.criterio_grupo ∧
       rowCatEx.formula_rec_paralela ≤ rowCatEx.formula_personalizada ∧
       rowCatEx.formula_rec_semestral ≤ rowCatEx.formula_personalizada) :=
  ⟨by decide, C7_subcount_invariants dbEx (by decide) rowCatEx (by decide)⟩

/-- Claim C8: if either aggregation result is `None`, the render
short-circuits to the user-visible error message and produces no
merged data. -/
theorem C8_short_circuit (dfCat : Option (List CriteriaAggregate))
    (dfMat : Option (List MatriculaAggregate))
    (h : dfCat = none ∨ dfMat = none) :
    render dfCat dfMat =
      Except.error
        "Não foi possível carregar os dados necessários para a análise." := by
  rcases h with rfl | rfl
  · cases dfMat <;> rfl
  · cases dfCat <;> rfl

/-- Claim C8, witness: a missing criteria aggregate short-circuits
even when the enrollment aggregate is present. -/
theorem C8_witness :
    render none (some []) =
      Except.error
        "Não foi possível carregar os dados necessários para a análise." :=
  C8_short_circuit none (some []) (Or.inl rfl)

/-- Claim C9: when query execution raises, `executar_consulta`
catches at the point of execution, emits the error and the offending
query text, and returns `None` — it is a total function, so no
exception reaches the caller. -/
theorem C9_query_failure {α : Type} (read_sql : String → Except String α)
    (query e : String) (h : read_sql query = .error e) :
    executar_consulta read_sql query =
      (none, [UIMessage.errorMsg ("Erro ao executar consulta: " ++ e),
        UIMessage.codeBlock query]) := by
  unfold executar_consulta
  rw [h]

/-- Claim C9, witness: a concrete failing read is caught and
reported with the query text. -/
theorem C9_witness :
    executar_consulta failRead "SELECT 1" =
      (none,
        [UIMessage.errorMsg
            ("Erro ao executar consulta: " ++ "connection refused"),
          UIMessage.codeBlock "SELECT 1"]) :=
  C9_query_failure failRead "SELECT 1" "connection refused" rfl

/-- Claim C10: under distinct entity ids the enrollment aggregate has
at most one row per entity id, so the left merge neither drops nor
duplicates criteria rows — the merged table has exactly one row per
criteria row, with the same entity-id column. -/
theorem C10_merge_preserves_rows (db : Database)
    (hN : (db.entidades.map (·.id)).Nodup) :
    ((carregar_dados_matriculas db).map (·.entidade_id)).Nodup ∧
    (carregar_df_completo db).length = (carregar_dados_categorias db).length ∧
    (carregar_df_completo db).map (·.entidade_id) =
      (carregar_dados_categorias db).map (·.entidade_id) := by
  have hmn : ((carregar_dados_matriculas db).map (·.entidade_id)).Nodup :=
    ((carregar_dados_matriculas_map_perm db).nodup_iff).mpr hN
  refine ⟨hmn, ?_, ?_⟩
  · unfold carregar_df_completo mesclar
    rw [List.length_map]
    exact merge_left_length hmn
  · unfold carregar_df_completo mesclar
    rw [List.map_map]
    exact merge_left_map_entidade _ _ hmn

/-- Claim C10, witness: on `dbEx` the merged table mirrors the
criteria aggregate row-for-row. -/
theorem C10_witness :
    ((carregar_dados_matriculas dbEx).map (·.entidade_id)).Nodup ∧
    (carregar_df_completo dbEx).length =
      (carregar_dados_categorias dbEx).length ∧
    (carregar_df_completo dbEx).map (·.entidade_id) =
      (carregar_dados_categorias dbEx).map (·.entidade_id) :=
  C10_merge_preserves_rows dbEx (by decide)
